import Mathlib

/-!
# Monty interpreter: spec-level model and verification

The repository's visible surface is its Python test files; the evaluator,
suspension machine and host interface live in hidden Rust crates.  Following
the specification (spec.md) and the behaviour pinned by the test files under
`src/crates/monty-python/tests` and `src/crates/monty/test_cases`, this file
gives a shallow embedding of the parts of the engine the verified claims
need: the built-in exception hierarchy, the value model, a suspendable
CPS evaluator, the host-level session/snapshot API, the `filter` builtin,
the id allocator, and pure POSIX path joining.
-/

namespace Monty

/-- Modelled from the spec: the fixed built-in exception class hierarchy
(spec §3, "Exception instance"), a static tree rooted at `BaseException`. -/
inductive ExcClass where
  | baseException
  | systemExit
  | keyboardInterrupt
  | exception
  | arithmeticError
  | overflowError
  | zeroDivisionError
  | lookupError
  | indexError
  | keyError
  | runtimeError
  | notImplementedError
  | recursionError
  | attributeError
  | assertionError
  | memoryError
  | nameError
  | syntaxError
  | osError
  | timeoutError
  | typeError
  | valueError
  | stopIteration
  deriving DecidableEq, Repr

/-- Modelled from the spec: the parent of each exception class in the fixed
tree (spec §3); `BaseException` is the root and has no parent. -/
def ExcClass.parent : ExcClass → Option ExcClass
  | .baseException => none
  | .systemExit => some .baseException
  | .keyboardInterrupt => some .baseException
  | .exception => some .baseException
  | .arithmeticError => some .exception
  | .overflowError => some .arithmeticError
  | .zeroDivisionError => some .arithmeticError
  | .lookupError => some .exception
  | .indexError => some .lookupError
  | .keyError => some .lookupError
  | .runtimeError => some .exception
  | .notImplementedError => some .runtimeError
  | .recursionError => some .runtimeError
  | .attributeError => some .exception
  | .assertionError => some .exception
  | .memoryError => some .exception
  | .nameError => some .exception
  | .syntaxError => some .exception
  | .osError => some .exception
  | .timeoutError => some .osError
  | .typeError => some .exception
  | .valueError => some .exception
  | .stopIteration => some .exception

/-- The chain of strict ancestors of a class, obtained by following
`parent` with enough fuel for the whole (depth ≤ 4) tree. -/
def ExcClass.ancestorChain (fuel : Nat) (c : ExcClass) : List ExcClass :=
  match fuel, c.parent with
  | 0, _ => []
  | _, none => []
  | f + 1, some p => p :: ExcClass.ancestorChain f p

/-- Strict ancestors of an exception class (not including the class itself). -/
def ExcClass.ancestors (c : ExcClass) : List ExcClass :=
  ExcClass.ancestorChain 8 c

/-- Modelled from the spec: a `try/except E1` clause matches if the
instance's class tag equals `E1` or any ancestor equals `E1` (spec §4.2). -/
def ExcClass.matches (instCls clauseCls : ExcClass) : Bool :=
  instCls = clauseCls || clauseCls ∈ instCls.ancestors

/-- Modelled from the spec: the script value model (spec §3), restricted to
the variants the verified claims exercise.  `builtinFn` covers the builtin
callables of the registry (functions and type objects); `userFn` covers
user-defined functions and lambdas, which exist as values but are an
execution non-goal (spec §4.6). -/
inductive Value where
  | none
  | bool (b : Bool)
  | int (n : Int)
  | str (s : String)
  | list (xs : List Value)
  | tuple (xs : List Value)
  | dict (entries : List (Value × Value))
  | builtinFn (name : String)
  | userFn (name : String)
  deriving Repr

/-- Modelled from the spec: truthiness (spec §4.1): `False`, `0`,
empty containers, empty string and `None` are falsy; all else truthy. -/
def Value.truthy : Value → Bool
  | .none => false
  | .bool b => b
  | .int n => n != 0
  | .str s => !s.isEmpty
  | .list xs => !xs.isEmpty
  | .tuple xs => !xs.isEmpty
  | .dict entries => !entries.isEmpty
  | .builtinFn _ => true
  | .userFn _ => true

/-- The script-level type name of a value, as used in error messages. -/
def Value.typeName : Value → String
  | .none => "NoneType"
  | .bool _ => "bool"
  | .int _ => "int"
  | .str _ => "str"
  | .list _ => "list"
  | .tuple _ => "tuple"
  | .dict _ => "dict"
  | .builtinFn _ => "builtin_function_or_method"
  | .userFn _ => "function"

/-- Modelled from the spec: an exception instance carries a class tag from
the built-in hierarchy and an arguments tuple (spec §3); the traceback and
cause pointers are not needed by the verified claims. -/
structure ExcInstance where
  cls : ExcClass
  args : List Value
  deriving Repr

/-- Build a `TypeError` instance with a single message argument. -/
def typeErr (msg : String) : ExcInstance :=
  { cls := .typeError, args := [.str msg] }

mutual

/-- Modelled from the spec: the textual rendering of a value, as produced by
`repr` and used for non-string arguments of `print` (spec §4.5).  String
escaping inside quotes is not modelled. -/
def Value.reprStr : Value → String
  | .none => "None"
  | .bool b => if b then "True" else "False"
  | .int n => toString n
  | .str s => "'" ++ s ++ "'"
  | .list xs => "[" ++ Value.reprSeq xs ++ "]"
  | .tuple [x] => "(" ++ Value.reprStr x ++ ",)"
  | .tuple xs => "(" ++ Value.reprSeq xs ++ ")"
  | .dict es => "\x7b" ++ Value.reprEntries es ++ "\x7d"
  | .builtinFn name => "<built-in function " ++ name ++ ">"
  | .userFn name => "<function " ++ name ++ ">"

/-- Comma-separated rendering of a sequence of values. -/
def Value.reprSeq : List Value → String
  | [] => ""
  | [x] => Value.reprStr x
  | x :: xs => Value.reprStr x ++ ", " ++ Value.reprSeq xs

/-- Comma-separated rendering of dict entries. -/
def Value.reprEntries : List (Value × Value) → String
  | [] => ""
  | [(key, val)] => Value.reprStr key ++ ": " ++ Value.reprStr val
  | (key, val) :: es =>
      Value.reprStr key ++ ": " ++ Value.reprStr val ++ ", " ++ Value.reprEntries es

end

/-- Modelled from the spec: the string form of a value as emitted by
`print` (spec §4.5): a string prints as its contents, any other value as
its `repr` rendering. -/
def Value.strOf : Value → String
  | .str s => s
  | v => Value.reprStr v

/-- Modelled from the spec: `print` emits each argument's string form and
each separator as a separate callback invocation, tagged with the stream
name, followed by `end` as its own invocation (spec §4.5, §6); default
`sep` is a single space and default `end` a newline. -/
def printArgTokens : List Value → List (String × String)
  | [] => []
  | [v] => [("stdout", v.strOf)]
  | v :: vs => ("stdout", v.strOf) :: ("stdout", " ") :: printArgTokens vs

/-- The full token list emitted by one default `print` call. -/
def printTokens (vs : List Value) : List (String × String) :=
  printArgTokens vs ++ [("stdout", "\n")]

/-- Numeric view of a value under the coercion `Bool ⊂ Int` (spec §4.6);
floats are outside the modelled fragment. -/
def Value.asNum : Value → Option Int
  | .bool b => some (if b then 1 else 0)
  | .int n => some n
  | _ => Option.none

/-- Modelled from the spec: the binary `+` operator, dispatching on the
operand tags with numeric coercion (spec §4.6); mismatched tags fail with
`TypeError`. -/
def addValues (a b : Value) : Except ExcInstance Value :=
  match a.asNum, b.asNum with
  | some m, some n => .ok (.int (m + n))
  | _, _ =>
    match a, b with
    | .str s, .str t => .ok (.str (s ++ t))
    | .list xs, .list ys => .ok (.list (xs ++ ys))
    | _, _ =>
        .error (typeErr ("unsupported operand type(s) for +: '" ++ a.typeName ++
          "' and '" ++ b.typeName ++ "'"))

/-- Modelled from the spec: the expression fragment of the AST that the
verified claims exercise (spec §4.6): literals, input names, binary `+`,
calls by name, and a `try/except` clause with a handler expression. -/
inductive Expr where
  | lit (v : Value)
  | var (name : String)
  | add (lhs rhs : Expr)
  | call (fname : String) (args : List Expr)
  | tryExcept (body : Expr) (clause : ExcClass) (handler : Expr)

/-- Modelled from the spec: the terminal conditions of one evaluator drive
(spec §4.6 state machine): completion, fault, or suspension at an external
call carrying the captured continuation; each state also carries the print
tokens emitted during the drive. -/
inductive RunState where
  | complete (v : Value) (out : List (String × String))
  | faulted (e : ExcInstance) (out : List (String × String))
  | suspended (fname : String) (args : List Value) (out : List (String × String))
      (k : Except ExcInstance Value → RunState)

/-- Name lookup in a scope frame (spec §4.4). -/
def lookupEnv : List (String × Value) → String → Option Value
  | [], _ => Option.none
  | (n, v) :: rest, x => if n == x then some v else lookupEnv rest x

mutual

/-- Modelled from the spec: the suspendable tree-walking evaluator
(spec §4.6, §4.7, §9) in continuation-passing style.  Arguments are
evaluated left to right; a call whose name is host-registered as external
suspends with the fully evaluated arguments, capturing the continuation;
`print` emits its tokens; unresolved names fail with `NameError`; a
`try/except E1` clause catches by class-or-ancestor match.  Tokens emitted
after a resumption are accounted to the resuming drive, so the continuation
restarts with an empty token list. -/
def evalExpr (ext : List String) (env : List (String × Value)) :
    Expr → List (String × String) → (Value → List (String × String) → RunState) →
    (ExcInstance → List (String × String) → RunState) → RunState
  | .lit v, out, k, _ => k v out
  | .var x, out, k, kE =>
      match lookupEnv env x with
      | some v => k v out
      | Option.none =>
          kE { cls := .nameError, args := [.str ("name '" ++ x ++ "' is not defined")] } out
  | .add a b, out, k, kE =>
      evalExpr ext env a out (fun va out1 =>
        evalExpr ext env b out1 (fun vb out2 =>
          match addValues va vb with
          | .ok v => k v out2
          | .error e => kE e out2) kE) kE
  | .call f args, out, k, kE =>
      evalArgs ext env args out (fun vs out1 =>
        if ext.contains f then
          .suspended f vs out1 (fun r =>
            match r with
            | .ok v => k v []
            | .error e => kE e [])
        else if f == "print" then
          k Value.none (out1 ++ printTokens vs)
        else
          kE { cls := .nameError, args := [.str ("name '" ++ f ++ "' is not defined")] } out1) kE
  | .tryExcept body clause handler, out, k, kE =>
      evalExpr ext env body out k (fun e out1 =>
        if ExcClass.matches e.cls clause then evalExpr ext env handler out1 k kE
        else kE e out1)

/-- Left-to-right evaluation of an argument list (spec §4.6, §4.7 step 1). -/
def evalArgs (ext : List String) (env : List (String × Value)) :
    List Expr → List (String × String) → (List Value → List (String × String) → RunState) →
    (ExcInstance → List (String × String) → RunState) → RunState
  | [], out, k, _ => k [] out
  | e :: es, out, k, kE =>
      evalExpr ext env e out (fun v out1 =>
        evalArgs ext env es out1 (fun vs out2 => k (v :: vs) out2) kE) kE

end

/-- Modelled from the spec: a snapshot is a continuation paused at an
external call, exposing the call description, a single-use flag, and
carrying the script name for later outcomes (spec §3 "Snapshot", §4.7).
Keyword arguments are not exercised by the verified claims. -/
structure Snapshot where
  scriptName : String
  functionName : String
  args : List Value
  k : Except ExcInstance Value → RunState
  used : Bool

/-- Modelled from the spec: the host-facing wrapper fault exception, whose
accessor returns the underlying exception instance (spec §6). -/
structure MontyRuntimeError where
  inner : ExcInstance

/-- The wrapper's accessor for the inner exception instance. -/
def MontyRuntimeError.exception (w : MontyRuntimeError) : ExcInstance := w.inner

/-- The three shapes a `start`/`resume` invocation can produce
(spec §4.6 state machine): `Complete`, `Snapshot`, or a wrapped fault. -/
inductive RunResult where
  | complete (output : Value)
  | snapshot (p : Snapshot)
  | fault (w : MontyRuntimeError)

/-- The result of one `start`/`resume` drive together with the print
tokens delivered to the callback during that drive. -/
structure Outcome where
  res : RunResult
  emitted : List (String × String)

/-- Map a terminal evaluator state to the host-facing outcome; a fresh
snapshot has its single-use flag clear. -/
def stateToOutcome (scriptName : String) : RunState → Outcome
  | .complete v out => ⟨.complete v, out⟩
  | .faulted e out => ⟨.fault ⟨e⟩, out⟩
  | .suspended f args out k => ⟨.snapshot ⟨scriptName, f, args, k, false⟩, out⟩

/-- Modelled from the spec: a Session binds source (as its AST — the parser
is an external collaborator), script name, declared input names, and
external function names (spec §4.8). -/
structure Session where
  source : Expr
  scriptName : String
  inputs : List String
  externals : List String

/-- Bind the provided inputs into the fresh module scope, keeping only the
names declared by the session (spec §4.8). -/
def bindInputs (declared : List String) (provided : List (String × Value)) :
    List (String × Value) :=
  provided.filter (fun p => declared.contains p.fst)

/-- Drive a fresh evaluator over the session's source (spec §4.7: each
invocation begins a fresh evaluator state). -/
def runScript (s : Session) (provided : List (String × Value)) : RunState :=
  evalExpr s.externals (bindInputs s.inputs provided) s.source []
    (fun v out => .complete v out) (fun e out => .faulted e out)

/-- Modelled from the spec: `start` builds a fresh evaluator state from the
session and the provided inputs alone and drives it to a terminal
condition (spec §4.8, §4.7). -/
def Session.start (s : Session) (provided : List (String × Value)) : Outcome :=
  stateToOutcome s.scriptName (runScript s provided)

/-- Host-API misuse errors: host-native `TypeError`/`RuntimeError` with a
fixed message (spec §7, category 1); these never wrap. -/
inductive HostError where
  | typeError (msg : String)
  | runtimeError (msg : String)

/-- The keyword arguments of one `resume` call: the two recognized keywords
and any unrecognized keyword names. -/
structure ResumeArgs where
  returnValue : Option Value
  exception : Option ExcInstance
  extraKwargs : List String

/-- Modelled from the spec: a `resume` call is well-formed when exactly one
of `return_value` and `exception` is given and no other keyword is
(spec §4.7). -/
def validResumeArgs (a : ResumeArgs) : Bool :=
  a.extraKwargs.isEmpty && (a.returnValue.isSome != a.exception.isSome)

/-- The value-or-exception a well-formed `resume` call delivers at the
paused call site. -/
def deliveredOf (a : ResumeArgs) : Except ExcInstance Value :=
  match a.exception with
  | some e => .error e
  | Option.none => .ok (a.returnValue.getD Value.none)

/-- Consume a snapshot's single-use flag. -/
def Snapshot.markUsed (p : Snapshot) : Snapshot := { p with used := true }

/-- Modelled from the spec: `resume` first validates its keyword arguments
(failing with the fixed `TypeError` and leaving the snapshot untouched —
the tests call `resume` invalidly three times in a row and observe the
same `TypeError` each time), then enforces the single-use flag (failing
with the fixed `RuntimeError`), and otherwise consumes the snapshot and
drives the captured continuation with the delivered value or exception
(spec §4.7). -/
def Snapshot.resume (p : Snapshot) (a : ResumeArgs) :
    Except HostError Outcome × Snapshot :=
  if !validResumeArgs a then
    (.error (.typeError "resume() accepts either return_value or exception, not both"), p)
  else if p.used then
    (.error (.runtimeError "Progress already resumed"), p)
  else
    (.ok (stateToOutcome p.scriptName (p.k (deliveredOf a))), p.markUsed)

/-- `resume(return_value=v)` as a `ResumeArgs` record. -/
def retArgs (v : Value) : ResumeArgs := ⟨some v, Option.none, []⟩

/-- `resume(exception=e)` as a `ResumeArgs` record. -/
def excArgs (e : ExcInstance) : ResumeArgs := ⟨Option.none, some e, []⟩

/-- The pending callee name when an outcome is a snapshot. -/
def Outcome.pendingName : Outcome → Option String
  | ⟨.snapshot p, _⟩ => some p.functionName
  | _ => Option.none

/-- The final value when an outcome is a completion. -/
def Outcome.finalOutput : Outcome → Option Value
  | ⟨.complete v, _⟩ => some v
  | _ => Option.none

/-- Chain a `resume` onto a previous outcome when it is a snapshot. -/
def stepResume (o : Option Outcome) (a : ResumeArgs) : Option Outcome :=
  o.bind fun oc =>
    match oc.res with
    | .snapshot p => (p.resume a).fst.toOption
    | _ => Option.none

/-- The host-side mutable state of a session's lifetime: the snapshots
created so far, in creation order, each carrying its single-use flag
(spec §9: the single-shot flag is the only mutation). -/
structure HostState where
  snaps : List Snapshot

/-- One host-level operation against a session. -/
inductive HostOp where
  | opStart (provided : List (String × Value))
  | opResume (idx : Nat) (a : ResumeArgs)

/-- What one host-level operation returns to the host. -/
inductive OpResult where
  | ok (o : Outcome)
  | hostErr (e : HostError)
  | badSnapshot

/-- Modelled from the spec: execute one host operation.  `start` reads only
the session and the provided inputs — never the host state — and records
any snapshot it creates; `resume` consumes the addressed snapshot,
writing back its used flag (spec §4.7, §4.8). -/
def execOp (s : Session) (σ : HostState) : HostOp → OpResult × HostState
  | .opStart provided =>
      let o := s.start provided
      let σ1 : HostState :=
        match o.res with
        | .snapshot p => ⟨σ.snaps ++ [p]⟩
        | _ => σ
      (.ok o, σ1)
  | .opResume i a =>
      match σ.snaps.get? i with
      | some p =>
          let r := p.resume a
          let snaps1 := σ.snaps.set i r.snd
          let σ2 : HostState :=
            match r.fst with
            | .ok o =>
                match o.res with
                | .snapshot q => ⟨snaps1 ++ [q]⟩
                | _ => ⟨snaps1⟩
            | .error _ => ⟨snaps1⟩
          (match r.fst with | .ok o => .ok o | .error e => .hostErr e, σ2)
      | Option.none => (.badSnapshot, σ)

/-- Execute a sequence of host operations, threading the host state. -/
def execOps (s : Session) (σ : HostState) : List HostOp → HostState
  | [] => σ
  | op :: ops => execOps s (execOp s σ op).snd ops

/-- Modelled from the spec: the elements yielded by iterating a value
(spec §4.1), for the variants of the modelled fragment: lists and tuples
yield their elements, strings yield one-character strings, dicts yield
their keys; other variants are not iterable. -/
def iterElems : Value → Option (List Value)
  | .list xs => some xs
  | .tuple xs => some xs
  | .str s => some (s.toList.map fun c => Value.str (String.singleton c))
  | .dict es => some (es.map Prod.fst)
  | _ => Option.none

/-- Modelled from the spec: one-argument application of the builtin
callables that the filter test cases use as predicates (spec §4.5); the
rest of the registry is outside the modelled subset and rejected. -/
def applyBuiltin (name : String) (x : Value) : Except ExcInstance Value :=
  if name == "bool" then .ok (.bool x.truthy)
  else if name == "abs" then
    match x.asNum with
    | some n => .ok (.int (n.natAbs : Int))
    | Option.none => .error (typeErr ("bad operand type for abs(): '" ++ x.typeName ++ "'"))
  else if name == "len" then
    match x with
    | .list xs => .ok (.int xs.length)
    | .tuple xs => .ok (.int xs.length)
    | .dict es => .ok (.int es.length)
    | .str s => .ok (.int (s.length : Int))
    | _ => .error (typeErr ("object of type '" ++ x.typeName ++ "' has no len()"))
  else if name == "str" then .ok (.str x.strOf)
  else if name == "int" then
    match x with
    | .int n => .ok (.int n)
    | .bool b => .ok (.int (if b then 1 else 0))
    | .str s =>
        match s.toInt? with
        | some n => .ok (.int n)
        | Option.none =>
            .error ⟨.valueError, [.str ("invalid literal for int() with base 10: '" ++ s ++ "'")]⟩
    | _ => .error (typeErr "int() argument must be a string or a number")
  else .error (typeErr ("builtin '" ++ name ++ "' is outside the modelled registry subset"))

/-- Keep the elements on which the predicate is truthy: `None` filters by
the element's own truthiness, a builtin predicate by the truthiness of its
result (spec §4.5); a predicate failure propagates. -/
def filterPass (p : Value) : List Value → Except ExcInstance (List Value)
  | [] => .ok []
  | x :: xs => do
      let keep ←
        match p with
        | .builtinFn f => do
            let r ← applyBuiltin f x
            pure r.truthy
        | _ => pure x.truthy
      let rest ← filterPass p xs
      pure (if keep then x :: rest else rest)

/-- Modelled from the spec and the pinned test tracebacks
(`test_cases/builtin__filter*.py`): `filter` accepts `None` or a builtin
callable as predicate and checks its arguments eagerly.  A user-defined
function or lambda predicate fails with the documented
"filter() predicate must be None or a builtin function" message; a
non-callable predicate fails with the generic "'<T>' object is not
callable" message (per `builtin__filter_not_callable.py`); a non-iterable
second argument fails with "'<T>' object is not iterable".  The laziness of
the reference language's filter is deliberately not mirrored (the test
cases are marked `xfail=cpython` for exactly this reason); the result is
modelled as the filtered list. -/
def montyFilter (p it : Value) : Except ExcInstance Value :=
  match p with
  | .none | .builtinFn _ =>
      match iterElems it with
      | some xs => (filterPass p xs).map Value.list
      | Option.none => .error (typeErr ("'" ++ it.typeName ++ "' object is not iterable"))
  | .userFn _ =>
      .error (typeErr
        "filter() predicate must be None or a builtin function (user-defined functions not yet supported)")
  | _ => .error (typeErr ("'" ++ p.typeName ++ "' object is not callable"))

/-- Modelled from the spec: the engine-assigned id store (spec §3
"Identity", §4.5 `id`, §9 arena note): ids are arena slot indices; a bump
counter hands out fresh slots and a free list recycles the slots of
values whose lifetimes have ended. -/
structure IdHeap where
  nextSlot : Nat
  freeSlots : List Nat

/-- Allocate a slot for a value: the most recently freed slot is reused
when one exists, else the bump counter advances.  The value itself is
irrelevant to the slot chosen — the arena is shared by every variant, so
recycling crosses types (per `test_cases/id__non_overlapping_lifetimes_distinct_types.py`). -/
def allocIdFor (_v : Value) : IdHeap → Nat × IdHeap
  | ⟨n, []⟩ => (n, ⟨n + 1, []⟩)
  | ⟨n, s :: rest⟩ => (s, ⟨n, rest⟩)

/-- Release a slot when the value's lifetime ends. -/
def freeId (h : IdHeap) (slot : Nat) : IdHeap := ⟨h.nextSlot, slot :: h.freeSlots⟩

/-- The evaluation of `id(t1) == id(t2)` where `t1` and `t2` are
temporaries: the first temporary is allocated, its id taken, and
its slot freed before the second temporary is allocated (their lifetimes
do not overlap); the two ids are then compared. -/
def idOfTemporaries (v₁ v₂ : Value) (h : IdHeap) : Bool × IdHeap :=
  let r₁ := allocIdFor v₁ h
  let h₂ := freeId r₁.snd r₁.fst
  let r₂ := allocIdFor v₂ h₂
  (r₁.fst == r₂.fst, freeId r₂.snd r₂.fst)

/-- A path string is absolute when its first character is `/`. -/
def isAbsPath (p : String) : Bool := p.toList.head? == some '/'

/-- Whether a path string already ends in a `/` separator. -/
def endsInSlash (p : String) : Bool := p.toList.getLast? == some '/'

/-- Modelled from the spec: pure POSIX path joining (spec §4.5 `pathlib`):
joining an absolute component discards everything accumulated so far and
restarts from it; otherwise the component is appended with a `/`
separator. -/
def joinComponent (base comp : String) : String :=
  if isAbsPath comp then comp
  else if base.toList.isEmpty then comp
  else if endsInSlash base then base ++ comp
  else base ++ "/" ++ comp

/-- Join a list of further components onto a base path, left to right;
this is `Path.joinpath` and the `/` operator folded over its arguments. -/
def joinAll (base : String) (comps : List String) : String :=
  comps.foldl joinComponent base

/-- The string of a `Path` built by the constructor from a list of
components; with no components the path is `.`. -/
def pathOfParts : List String → String
  | [] => "."
  | c :: cs => joinAll c cs

/-- The pending callee name of an optional outcome, for resume chains. -/
def pendingOf (o : Option Outcome) : Option String := o.bind Outcome.pendingName

/-- The completion value of an optional outcome, for resume chains. -/
def outputOf (o : Option Outcome) : Option Value := o.bind Outcome.finalOutput

/-- The session of the `test_start_multiple_external_calls` scenario:
source `a() + b()` with externals `a` and `b` (spec §8 scenario 3). -/
def sessionAB : Session :=
  ⟨.add (.call "a" []) (.call "b" []), "main.py", [], ["a", "b"]⟩

/-- A session whose source is a single call to one external function. -/
def callSession (fname scriptName : String) : Session :=
  ⟨.call fname [], scriptName, [], [fname]⟩

/-- A session whose source wraps a single external call in one
`try/except clause` with a handler evaluating to `True` (spec §8
scenario 5 generalized over the clause class). -/
def tryCallSession (clause : ExcClass) : Session :=
  ⟨.tryExcept (.call "f" []) clause (.lit (.bool true)), "main.py", [], ["f"]⟩

/-- A session whose source is one `print` call on literal arguments. -/
def printSession (args : List Value) : Session :=
  ⟨.call "print" (args.map .lit), "main.py", [], []⟩

/-- Whether a value is the `None` constant. -/
def isNoneV : Value → Bool
  | .none => true
  | _ => false

/-- Whether a value is a builtin callable of the registry. -/
def isBuiltinCallable : Value → Bool
  | .builtinFn _ => true
  | _ => false

/-- Whether a value is a user-defined function or lambda. -/
def isUserCallable : Value → Bool
  | .userFn _ => true
  | _ => false

/-- A concrete fresh snapshot paused at a call `func()` of `main.py`,
as produced by `start` on the `func()` session. -/
def witSnap : Snapshot :=
  ⟨"main.py", "func", [],
    fun r => match r with
      | .ok v => .complete v []
      | .error e => .faulted e [], false⟩

/-- C8: on the session `a() + b()` with externals `a` and `b`, operands
are evaluated left to right: `start` suspends at `a`; resuming with 10
suspends at `b`; resuming with 5 completes with output 15. -/
theorem start_ab_suspends_left_to_right :
    pendingOf (some (sessionAB.start [])) = some "a" ∧
    pendingOf (stepResume (some (sessionAB.start [])) (retArgs (.int 10))) = some "b" ∧
    outputOf (stepResume (stepResume (some (sessionAB.start [])) (retArgs (.int 10)))
      (retArgs (.int 5))) = some (.int 15) :=
  ⟨rfl, rfl, rfl⟩

/-- C5: `start` reads only the session and the inputs provided to it — its
result after any sequence of prior host operations (earlier starts,
resumes, invalid resumes) on the same session equals its result after any
other sequence, and is the pure `Session.start` of the session on those
inputs. -/
theorem start_pure (s : Session) (I : List (String × Value))
    (σ : HostState) (ops₁ ops₂ : List HostOp) :
    (execOp s (execOps s σ ops₁) (.opStart I)).fst = .ok (s.start I) ∧
    (execOp s (execOps s σ ops₁) (.opStart I)).fst =
      (execOp s (execOps s σ ops₂) (.opStart I)).fst :=
  ⟨rfl, rfl⟩

/-- C9: when two temporaries have non-overlapping lifetimes the arena
slot of the first is recycled for the second whatever the two values are,
so their ids compare equal — in particular, from any heap state,
`id([]) == id([])`, `id({}) == id({})`, `id([]) == id({})` and
`id([]) == id((1,))` all evaluate to `True`. -/
theorem id_reuse_across_lifetimes (v₁ v₂ : Value) (h : IdHeap) :
    (idOfTemporaries v₁ v₂ h).fst = true ∧
    (idOfTemporaries (.list []) (.list []) ⟨0, []⟩).fst = true ∧
    (idOfTemporaries (.dict []) (.dict []) ⟨0, []⟩).fst = true ∧
    (idOfTemporaries (.list []) (.dict []) ⟨0, []⟩).fst = true ∧
    (idOfTemporaries (.list []) (.tuple [.int 1]) ⟨0, []⟩).fst = true := by
  refine ⟨?_, rfl, rfl, rfl, rfl⟩
  obtain ⟨n, free⟩ := h
  cases free <;> simp [idOfTemporaries, allocIdFor, freeId]

/-- C10: joining an absolute component discards every previously
accumulated component and restarts from it — both in the `Path`
constructor and in `joinpath`/`/` — so
`str(Path('start', '/absolute', 'end')) = '/absolute/end'` and
`str(Path('/usr').joinpath('/etc')) = '/etc'`. -/
theorem path_absolute_component_restarts (base c : String) (pre rest : List String)
    (hc : isAbsPath c = true) :
    joinAll base (pre ++ c :: rest) = joinAll c rest ∧
    pathOfParts ["start", "/absolute", "end"] = "/absolute/end" ∧
    joinAll "/usr" ["/etc"] = "/etc" := by
  refine ⟨?_, by decide, by decide⟩
  unfold joinAll
  rw [List.foldl_append, List.foldl_cons]
  have hjoin : joinComponent (List.foldl joinComponent base pre) c = c := by
    unfold joinComponent
    rw [hc]
    simp
  rw [hjoin]

/-- Witness for C10 at the concrete components of the test case. -/
theorem path_absolute_component_restarts_witness :
    isAbsPath "/absolute" = true ∧
    joinAll "start" ([] ++ "/absolute" :: ["end"]) = joinAll "/absolute" ["end"] :=
  ⟨by decide, (path_absolute_component_restarts "start" "/absolute" [] ["end"] (by decide)).1⟩

/-- Helper: a snapshot handed out by `stateToOutcome` — hence by any
`start` or `resume` — has its single-use flag clear. -/
theorem stateToOutcome_snapshot_fresh (sn : String) (rs : RunState) (q : Snapshot)
    (out : List (String × String)) (h : stateToOutcome sn rs = ⟨.snapshot q, out⟩) :
    q.used = false := by
  cases rs with
  | complete v o => simp [stateToOutcome] at h
  | faulted e o => simp [stateToOutcome] at h
  | suspended f args o k =>
      simp only [stateToOutcome, Outcome.mk.injEq, RunResult.snapshot.injEq] at h
      rw [← h.1]

/-- C1: a fresh snapshot is consumed by its first well-formed `resume`,
which succeeds (producing the outcome of driving the captured
continuation); once consumed, every further well-formed `resume` —
regardless of the outcome of the first — fails with
`RuntimeError("Progress already resumed")` and leaves the snapshot
unchanged; and every snapshot produced by `start` or by a `resume` is
fresh. -/
theorem snapshot_single_shot (p : Snapshot) (a₁ a₂ : ResumeArgs)
    (hp : p.used = false) (h₁ : validResumeArgs a₁ = true) (h₂ : validResumeArgs a₂ = true) :
    p.resume a₁ = (.ok (stateToOutcome p.scriptName (p.k (deliveredOf a₁))), p.markUsed) ∧
    p.markUsed.resume a₂ = (.error (.runtimeError "Progress already resumed"), p.markUsed) ∧
    (∀ (q : Snapshot) (a : ResumeArgs), q.used = true → validResumeArgs a = true →
      q.resume a = (.error (.runtimeError "Progress already resumed"), q)) ∧
    (∀ (s : Session) (I : List (String × Value)) (q : Snapshot)
        (out : List (String × String)),
      s.start I = ⟨.snapshot q, out⟩ → q.used = false) ∧
    (∀ (q : Snapshot) (a : ResumeArgs) (q' : Snapshot) (out : List (String × String)),
      (q.resume a).fst = .ok ⟨.snapshot q', out⟩ → q'.used = false) := by
  refine ⟨?_, ?_, ?_, ?_, ?_⟩
  · simp [Snapshot.resume, h₁, hp]
  · simp [Snapshot.resume, h₂, Snapshot.markUsed]
  · intro q a hq ha
    simp [Snapshot.resume, ha, hq]
  · intro s I q out hstart
    exact stateToOutcome_snapshot_fresh s.scriptName (runScript s I) q out hstart
  · intro q a q' out hres
    cases hva : validResumeArgs a with
    | false => simp [Snapshot.resume, hva] at hres
    | true =>
      cases hqu : q.used with
      | true => simp [Snapshot.resume, hva, hqu] at hres
      | false =>
        simp only [Snapshot.resume, hva, hqu, Bool.not_true, Bool.false_eq_true,
          if_false, ite_false, Except.ok.injEq] at hres
        exact stateToOutcome_snapshot_fresh _ _ _ _ hres

/-- Witness for C1 on the fresh `func()` snapshot, resumed twice. -/
theorem snapshot_single_shot_witness :
    witSnap.resume (retArgs (.int 1)) = (.ok ⟨.complete (.int 1), []⟩, witSnap.markUsed) ∧
    witSnap.markUsed.resume (retArgs (.int 2)) =
      (.error (.runtimeError "Progress already resumed"), witSnap.markUsed) := by
  have h := snapshot_single_shot witSnap (retArgs (.int 1)) (retArgs (.int 2)) rfl rfl rfl
  exact ⟨h.1, h.2.1⟩

/-- C4: a `resume` call with neither of the two recognized keywords, with
both, or with any unrecognized keyword fails with the fixed `TypeError`
and returns the snapshot unchanged, so it does not consume the
single-shot state. -/
theorem resume_invalid_args (p : Snapshot) (a : ResumeArgs)
    (h : (a.returnValue = Option.none ∧ a.exception = Option.none) ∨
         (a.returnValue.isSome = true ∧ a.exception.isSome = true) ∨
         a.extraKwargs ≠ []) :
    p.resume a =
      (.error (.typeError "resume() accepts either return_value or exception, not both"), p) := by
  have hv : validResumeArgs a = false := by
    unfold validResumeArgs
    rcases h with ⟨h1, h2⟩ | ⟨h1, h2⟩ | h1
    · rw [h1, h2]; simp
    · rw [h1, h2]; simp
    · rcases hek : a.extraKwargs with _ | ⟨x, xs⟩
      · exact absurd hek h1
      · rfl
  simp [Snapshot.resume, hv]

/-- Witness for C4: a `resume()` with no arguments on the fresh `func()`
snapshot. -/
theorem resume_invalid_args_witness :
    witSnap.resume ⟨Option.none, Option.none, []⟩ =
      (.error (.typeError "resume() accepts either return_value or exception, not both"),
        witSnap) :=
  resume_invalid_args witSnap ⟨Option.none, Option.none, []⟩ (Or.inl ⟨rfl, rfl⟩)

/-- C2: on a session whose source is a single call to an external
function, `start` suspends at that call and resuming with
`return_value=v` completes with output exactly `v`, for every value `v`
(`None` and nested containers included). -/
theorem resume_roundtrip (v : Value) (fname scriptName : String) :
    pendingOf (some ((callSession fname scriptName).start [])) = some fname ∧
    outputOf (stepResume (some ((callSession fname scriptName).start []))
      (retArgs v)) = some v := by
  have hc : ([fname].contains fname) = true := by simp
  constructor <;>
    simp [callSession, Session.start, runScript, bindInputs, evalExpr, evalArgs,
      stateToOutcome, pendingOf, outputOf, stepResume, Outcome.pendingName,
      Outcome.finalOutput, Snapshot.resume, validResumeArgs, retArgs, deliveredOf,
      Snapshot.markUsed, Except.toOption, hc]

/-- C3: an exception `E` delivered by `resume(exception=E)` at an
external call inside `try/except T` is caught — completing with the
handler's value — exactly when `T` is `E`'s class or one of its
ancestors in the built-in hierarchy; otherwise the resume produces the
wrapper fault whose accessor returns the inner instance with class and
arguments intact. -/
theorem resume_exception_catch_iff (E : ExcInstance) (T : ExcClass) :
    stepResume (some ((tryCallSession T).start [])) (excArgs E) =
      some (if ExcClass.matches E.cls T then ⟨.complete (.bool true), []⟩
            else ⟨.fault ⟨E⟩, []⟩) ∧
    (ExcClass.matches E.cls T = true ↔ (T = E.cls ∨ T ∈ E.cls.ancestors)) ∧
    MontyRuntimeError.exception ⟨E⟩ = E := by
  refine ⟨?_, ?_, rfl⟩
  · cases hm : ExcClass.matches E.cls T <;>
      simp [tryCallSession, Session.start, runScript, bindInputs, evalExpr, evalArgs,
        stateToOutcome, stepResume, Snapshot.resume, validResumeArgs, excArgs,
        deliveredOf, Except.toOption, hm]
  · simp only [ExcClass.matches, Bool.or_eq_true, decide_eq_true_eq]
    exact or_congr eq_comm Iff.rfl

/-- C6: `print(a, b)` with a configured callback produces exactly four
invocations in order — the first argument's text, the separator, the
second argument's text, and the line end, each on `stdout` as its own
invocation — and `print("hello")` produces exactly
`("stdout", "hello")` then `("stdout", "\n")`. -/
theorem print_tokenization (a b : Value) :
    (printSession [a, b]).start [] =
      ⟨.complete Value.none,
        [("stdout", a.strOf), ("stdout", " "), ("stdout", b.strOf), ("stdout", "\n")]⟩ ∧
    (printSession [.str "hello"]).start [] =
      ⟨.complete Value.none, [("stdout", "hello"), ("stdout", "\n")]⟩ :=
  ⟨rfl, rfl⟩

/-- C7 counterexample: `filter(4, [1, 2])` fails with
`TypeError("'int' object is not callable")`, whose message does not begin
with "filter() predicate must be None or a builtin function"
(per `test_cases/builtin__filter_not_callable.py`). -/
theorem filter_not_callable_counterexample :
    montyFilter (.int 4) (.list [.int 1, .int 2]) =
      .error (typeErr "'int' object is not callable") ∧
    ("filter() predicate must be None or a builtin function".toList.isPrefixOf
      "'int' object is not callable".toList) = false :=
  ⟨rfl, by decide⟩

/-- C7 amended: a user-defined function or lambda predicate fails with the
`TypeError` whose message begins "filter() predicate must be None or a
builtin function"; a non-callable predicate fails with
`TypeError("'<T>' object is not callable")` for its type name `<T>`; and a
`None` or builtin predicate with a non-iterable second argument fails with
`TypeError("'<T>' object is not iterable")` for the iterable's type
name. -/
theorem filter_argument_errors (p it : Value) :
    (isNoneV p = false → isBuiltinCallable p = false → isUserCallable p = false →
      montyFilter p it =
        .error (typeErr ("'" ++ p.typeName ++ "' object is not callable"))) ∧
    (isUserCallable p = true →
      montyFilter p it = .error (typeErr
        "filter() predicate must be None or a builtin function (user-defined functions not yet supported)")) ∧
    ("filter() predicate must be None or a builtin function".toList.isPrefixOf
      "filter() predicate must be None or a builtin function (user-defined functions not yet supported)".toList
      = true) ∧
    ((isNoneV p = true ∨ isBuiltinCallable p = true) → iterElems it = Option.none →
      montyFilter p it =
        .error (typeErr ("'" ++ it.typeName ++ "' object is not iterable"))) := by
  refine ⟨?_, ?_, by decide, ?_⟩
  · intro h1 h2 h3
    cases p <;> simp_all [isNoneV, isBuiltinCallable, isUserCallable, montyFilter]
  · intro h
    cases p <;> simp_all [isUserCallable, montyFilter]
  · intro hp hit
    cases p <;> simp_all [isNoneV, isBuiltinCallable, montyFilter]

/-- Witness for C7's amended claim at the three error shapes of the test
cases. -/
theorem filter_argument_errors_witness :
    montyFilter (.userFn "is_positive") (.list [.int 1, .int 2]) =
      .error (typeErr
        "filter() predicate must be None or a builtin function (user-defined functions not yet supported)") ∧
    montyFilter (.bool true) (.list []) =
      .error (typeErr "'bool' object is not callable") ∧
    montyFilter .none (.int 42) =
      .error (typeErr "'int' object is not iterable") := by
  refine ⟨?_, ?_, ?_⟩
  · exact (filter_argument_errors (.userFn "is_positive") (.list [.int 1, .int 2])).2.1 rfl
  · exact (filter_argument_errors (.bool true) (.list [])).1 rfl rfl rfl
  · exact (filter_argument_errors Value.none (.int 42)).2.2.2 (Or.inl rfl) rfl

end Monty
